import Mathlib

/-!
Verification of the first-responder risk core: the sliding-window heart-rate
feature extractor (`src/ml/features/heart_rate_features.py`), the trainable
risk model with its rule-based fallback (`src/ml/models/risk_assessment_model.py`),
and the multi-factor risk scorer (`src/server/app/risk/scorer.py`).

Numeric values are modelled as exact rationals where the computation is purely
arithmetic, and as real numbers where the source takes square roots
(`np.std`, `np.sqrt`, RMSSD).  Wall-clock timestamps are modelled as integers;
no property proved here depends on them.
-/

namespace FRRisk

/-- A single heart-rate measurement (`HeartRateSample` dataclass,
`heart_rate_features.py` lines 12-18). -/
structure HeartRateSample where
  value : ℚ
  timestamp : ℤ
  confidence : ℚ
  source : String
deriving DecidableEq, Repr

/-- Python list slice `l[-w:]`: the last `w` elements — except that `w = 0`
yields the whole list, because `-0 == 0` and `l[0:]` is `l`. -/
def lastSlice (w : Nat) (l : List α) : List α :=
  if w = 0 then l else l.drop (l.length - w)

/-- The buffer update performed by `HeartRateFeatureExtractor.add_sample`
(lines 96-102): append the new sample, then keep only the most recent
`window_size` samples. -/
def add_sample_buffer (window_size : Nat) (buf : List HeartRateSample)
    (s : HeartRateSample) : List HeartRateSample :=
  let b := buf ++ [s]
  if window_size < b.length then lastSlice window_size b else b

/-- Buffer contents after feeding `samples` in order to a fresh extractor. -/
def bufferState (window_size : Nat) (samples : List HeartRateSample) :
    List HeartRateSample :=
  samples.foldl (add_sample_buffer window_size) []

theorem add_sample_buffer_of_drop (w : Nat) (hw : 0 < w) (l : List HeartRateSample)
    (s : HeartRateSample) :
    add_sample_buffer w (l.drop (l.length - w)) s =
      (l ++ [s]).drop ((l ++ [s]).length - w) := by
  unfold add_sample_buffer lastSlice
  rcases Nat.lt_or_ge l.length w with hlt | hge
  · have h0 : l.length - w = 0 := Nat.sub_eq_zero_of_le (Nat.le_of_lt hlt)
    have h0' : (l ++ [s]).length - w = 0 := by
      simp only [List.length_append, List.length_singleton]
      omega
    simp only [h0, List.drop_zero, h0']
    have : ¬ w < (l ++ [s]).length := by
      simp only [List.length_append, List.length_singleton]; omega
    simp [this]
  · have hdl : (l.drop (l.length - w)).length = w := by
      simp only [List.length_drop]; omega
    have hcond : w < (l.drop (l.length - w) ++ [s]).length := by
      simp only [List.length_append, List.length_singleton, hdl]; omega
    have hwne : ¬ w = 0 := Nat.pos_iff_ne_zero.mp hw
    simp only [hcond, if_true, hwne, if_false]
    have hlen : (l.drop (l.length - w) ++ [s]).length - w = 1 := by
      simp only [List.length_append, List.length_singleton, hdl]; omega
    rw [hlen]
    have hstep : (l.drop (l.length - w) ++ [s]).drop 1 =
        (l ++ [s]).drop (l.length - w + 1) := by
      rw [List.drop_append_of_le_length (show 1 ≤ (l.drop (l.length - w)).length by omega),
        List.drop_append_of_le_length (show l.length - w + 1 ≤ l.length by omega),
        List.drop_drop]
    rw [hstep]
    congr 1
    simp only [List.length_append, List.length_singleton]
    omega

theorem bufferState_eq_drop (w : Nat) (hw : 0 < w)
    (samples : List HeartRateSample) :
    bufferState w samples = samples.drop (samples.length - w) := by
  induction samples using List.reverseRecOn with
  | nil => simp [bufferState]
  | append_singleton l s ih =>
      have hfold : bufferState w (l ++ [s]) =
          add_sample_buffer w (bufferState w l) s := by
        simp [bufferState, List.foldl_append]
      rw [hfold, ih, add_sample_buffer_of_drop w hw]

/-- Claim C6: after inserting `window_size + k` samples (`k > 0`) into a fresh
extractor, the buffer holds exactly the last `window_size` samples in
insertion order, and after any sequence of insertions the buffer length is at
most `window_size`. -/
theorem c6_buffer_eviction (w : Nat) (hw : 0 < w) :
    (∀ (k : Nat) (samples : List HeartRateSample), 0 < k →
        samples.length = w + k →
        bufferState w samples = samples.drop k ∧
          (bufferState w samples).length = w) ∧
    (∀ samples : List HeartRateSample, (bufferState w samples).length ≤ w) := by
  constructor
  · intro k samples hk hlen
    have h := bufferState_eq_drop w hw samples
    have hsub : samples.length - w = k := by omega
    rw [hsub] at h
    refine ⟨h, ?_⟩
    rw [h, List.length_drop, hlen]
    omega
  · intro samples
    rw [bufferState_eq_drop w hw samples, List.length_drop]
    omega

/-- A fixed sample used for concrete instantiations. -/
def sampleA : HeartRateSample := ⟨70, 0, 1, "watch"⟩

/-- Witness for C6 at the default window size 60 with 61 insertions. -/
theorem c6_buffer_eviction_witness :
    bufferState 60 (List.replicate 61 sampleA) =
        (List.replicate 61 sampleA).drop 1 ∧
    (bufferState 60 (List.replicate 61 sampleA)).length = 60 :=
  (c6_buffer_eviction 60 (by norm_num)).1 1 (List.replicate 61 sampleA)
    (by norm_num) (by simp)

/-! ## The `HeartRateFeatures` dataclass and its constructor calls

The class body of `HeartRateFeatures` (lines 20-55) annotates `max_hr` twice
(line 28, a window statistic, and line 41, the profile maximum).  A repeated
annotation in a Python class body re-uses the existing `__annotations__` key,
so the generated `__init__` has a single `max_hr` parameter — and no
`max_hr_est` parameter, although both `_extract_features` (line 157) and
`_create_default_features` (line 343) pass `max_hr_est=` as a keyword. -/

/-- The annotated field names of `HeartRateFeatures`, in source order,
including the repeated `max_hr`. -/
def heartRateFeaturesAnnotations : List String :=
  ["current_hr", "mean_hr", "std_hr", "min_hr", "max_hr",
   "hr_trend", "hr_acceleration",
   "rmssd", "sdnn", "pnn50",
   "resting_hr", "max_hr", "hr_reserve", "intensity_zone",
   "intensity_percentage",
   "hr_anomaly_score", "stress_indicator", "fatigue_indicator",
   "time_since_start", "recent_activity",
   "timestamp"]

/-- The parameters of the generated `__init__` (annotations with the repeated
key collapsed). -/
def heartRateFeaturesInitParams : List String :=
  heartRateFeaturesAnnotations.eraseDups

/-- Calling a generated dataclass constructor with keyword arguments: Python
raises `TypeError` on a keyword that is not an `__init__` parameter, and on a
missing parameter. -/
def dataclassCall (params kwargs : List String) : Except String Unit :=
  match kwargs.find? (fun k => !params.contains k) with
  | some k => .error ("TypeError: __init__() got an unexpected keyword argument " ++ k)
  | none =>
      if params.all kwargs.contains then .ok ()
      else .error "TypeError: __init__() missing required arguments"

/-- Keywords passed by `_create_default_features` (lines 331-353). -/
def createDefaultFeaturesKwargs : List String :=
  ["current_hr", "mean_hr", "std_hr", "min_hr", "max_hr",
   "hr_trend", "hr_acceleration",
   "rmssd", "sdnn", "pnn50",
   "resting_hr", "max_hr_est", "hr_reserve", "intensity_zone",
   "intensity_percentage",
   "hr_anomaly_score", "stress_indicator", "fatigue_indicator",
   "time_since_start", "recent_activity",
   "timestamp"]

/-- Keywords passed by `_extract_features` (lines 145-167). -/
def extractFeaturesKwargs : List String :=
  ["current_hr", "mean_hr", "std_hr", "min_hr", "max_hr",
   "hr_trend", "hr_acceleration",
   "rmssd", "sdnn", "pnn50",
   "resting_hr", "max_hr_est", "hr_reserve", "intensity_zone",
   "intensity_percentage",
   "hr_anomaly_score", "stress_indicator", "fatigue_indicator",
   "time_since_start", "recent_activity",
   "timestamp"]

/-- Outcome of constructing the `HeartRateFeatures` result inside
`_extract_features` (line 107-110 chooses the branch on the buffer length
`n`; each branch then calls the dataclass constructor). -/
def extractFeaturesOutcome (min_samples n : Nat) : Except String Unit :=
  if n < min_samples then
    dataclassCall heartRateFeaturesInitParams createDefaultFeaturesKwargs
  else
    dataclassCall heartRateFeaturesInitParams extractFeaturesKwargs

/-- Outcome of a full `add_sample` call: the buffer is updated first
(lines 96-102), then features are extracted from the new buffer (line 105). -/
def add_sample_outcome (window_size min_samples : Nat)
    (buf : List HeartRateSample) (s : HeartRateSample) : Except String Unit :=
  extractFeaturesOutcome min_samples (add_sample_buffer window_size buf s).length

/-- Claim C1 (code bug): the very first `add_sample` call on a fresh extractor
(default `window_size = 60`, `min_samples = 10`) is a warm-up call
(buffer length 1 < 10), yet it does not return a default vector — the
`HeartRateFeatures` constructor raises `TypeError` because `max_hr_est` is not
a field of the dataclass. -/
theorem c1_warmup_type_error :
    add_sample_outcome 60 10 [] sampleA =
        .error "TypeError: __init__() got an unexpected keyword argument max_hr_est" ∧
    (add_sample_buffer 60 [] sampleA).length < 10 ∧
    "max_hr_est" ∉ heartRateFeaturesInitParams :=
  ⟨rfl, by decide, by decide⟩

/-! ## RMSSD / pNN50 and the unguarded division (`60000 / value`) -/

/-- Scalar division as performed on each element of the numpy array
`60000 / hr_values` (lines 205 and 219), with the zero-divisor case surfaced
as the error branch. -/
def npDiv (a b : ℚ) : Except String ℚ :=
  if b = 0 then .error "ZeroDivisionError: division by zero" else .ok (a / b)

/-- `np.diff`: successive differences. -/
def npDiff (l : List ℚ) : List ℚ :=
  (l.zip l.tail).map fun p => p.2 - p.1

/-- `_calculate_rmssd` (lines 199-211): convert each value to an inferred RR
interval via `60000 / value`, then return the square root of the mean squared
successive difference.  The division is the modelled failure point; its error
branch short-circuits before the square root is taken.  Returns `0.0` for
fewer than 2 samples. -/
noncomputable def rmssd_outcome (hr_values : List ℚ) : Except String ℝ :=
  if hr_values.length < 2 then .ok 0
  else do
    let rr ← hr_values.mapM (npDiv 60000)
    let rr_diffs := npDiff rr
    .ok (Real.sqrt (((((rr_diffs.map (fun x => x ^ 2)).sum / rr_diffs.length : ℚ)) : ℝ)))

/-- `_calculate_pnn50` (lines 213-228): percentage of successive inferred-RR
differences whose absolute value exceeds 50 ms.  Returns `0.0` for fewer than
2 samples. -/
def pnn50_outcome (hr_values : List ℚ) : Except String ℚ :=
  if hr_values.length < 2 then .ok 0
  else do
    let rr ← hr_values.mapM (npDiv 60000)
    let rr_diffs := (npDiff rr).map (fun x => |x|)
    let nn50_count := (rr_diffs.filter (fun x => 50 < x)).length
    let total_intervals := rr_diffs.length
    .ok (if 0 < total_intervals then ((nn50_count : ℚ) / total_intervals) * 100 else 0)

/-- The ingest payload `HeartRateData` (`src/ml/api/heart_rate_ml_api.py`
lines 29-36).  Pydantic validates only the field types: `heart_rate : float`
carries no lower bound, so zero and negative readings are accepted and flow
unchanged into the extractor buffer. -/
structure HeartRateData where
  officer_id : String
  heart_rate : ℚ
  timestamp : String
  confidence : ℚ := 1
  source : String := "watch"

/-- A zero heart-rate reading accepted at ingestion. -/
def zeroReading : HeartRateData :=
  { officer_id := "officer-1", heart_rate := 0, timestamp := "2026-01-01T00:00:00Z" }

/-- Claim C9: ingesting the readings 80 and 0 (both accepted — the schema
imposes no positivity check, and `add_sample` appends unconditionally) yields
a window of 2 samples containing the value 0, on which both the RMSSD and the
pNN50 computation hit the division-by-zero branch of `60000 / value`. -/
theorem c9_division_by_zero_reachable :
    (bufferState 60 [⟨80, 0, 1, "watch"⟩, ⟨zeroReading.heart_rate, 1, 1, "watch"⟩]).map
        HeartRateSample.value = [80, 0] ∧
    2 ≤ ([80, 0] : List ℚ).length ∧ (0 : ℚ) ∈ ([80, 0] : List ℚ) ∧
    rmssd_outcome [80, 0] = .error "ZeroDivisionError: division by zero" ∧
    pnn50_outcome [80, 0] = .error "ZeroDivisionError: division by zero" :=
  ⟨by decide, by decide, by decide, rfl, rfl⟩

/-! ## The risk assessment model (`src/ml/models/risk_assessment_model.py`)

The `HeartRateFeatures` record below carries the fields the dataclass
actually has (the repeated `max_hr` annotation collapses to one field, see
above); it is what `predict_risk` consumes.  The trained classifier, scaler
and anomaly detector are fitted scikit-learn objects whose internals live
outside this repository; they are modelled as abstract functions. -/

/-- The fields of the `HeartRateFeatures` dataclass (lines 20-55). -/
structure HeartRateFeatures where
  current_hr : ℚ
  mean_hr : ℚ
  std_hr : ℚ
  min_hr : ℚ
  max_hr : ℚ
  hr_trend : ℚ
  hr_acceleration : ℚ
  rmssd : ℚ
  sdnn : ℚ
  pnn50 : ℚ
  resting_hr : ℚ
  hr_reserve : ℚ
  intensity_zone : String
  intensity_percentage : ℚ
  hr_anomaly_score : ℚ
  stress_indicator : ℚ
  fatigue_indicator : ℚ
  time_since_start : ℚ
  recent_activity : String
  timestamp : ℤ
deriving DecidableEq, Repr

/-- `dict.get(key, default)` on an insertion-ordered mapping. -/
def dict_get (d : List (String × α)) (k : String) (dflt : α) : α :=
  ((d.find? (fun p => p.1 == k)).map Prod.snd).getD dflt

/-- `_encode_activity` (lines 210-218). -/
def encode_activity (activity : String) : ℚ :=
  dict_get [("increasing", 1), ("stable", 0), ("decreasing", -1), ("unknown", 0)]
    activity 0

/-- `_encode_intensity_zone` (lines 220-230). -/
def encode_intensity_zone (zone : String) : ℚ :=
  dict_get [("rest", 0), ("light", 0.25), ("moderate", 0.5), ("vigorous", 0.75),
    ("max", 1), ("unknown", 0)] zone 0

/-- `_extract_features_from_object` (lines 164-185): the 18-dimensional
numeric vector. -/
def extract_features_from_object (f : HeartRateFeatures) : List ℚ :=
  [f.current_hr, f.mean_hr, f.std_hr, f.min_hr, f.max_hr,
   f.hr_trend, f.hr_acceleration, f.rmssd, f.sdnn, f.pnn50,
   f.hr_reserve, f.intensity_percentage, f.hr_anomaly_score,
   f.stress_indicator, f.fatigue_indicator, f.time_since_start,
   encode_activity f.recent_activity, encode_intensity_zone f.intensity_zone]

/-- `_get_feature_names` (lines 232-240). -/
def feature_names : List String :=
  ["current_hr", "mean_hr", "std_hr", "min_hr", "max_hr",
   "hr_trend", "hr_acceleration", "rmssd", "sdnn", "pnn50",
   "hr_reserve", "intensity_percentage", "hr_anomaly_score",
   "stress_indicator", "fatigue_indicator", "time_since_start",
   "recent_activity", "intensity_zone"]

/-- The unnormalized contribution mapping built by the loop of
`_get_contributing_factors` (lines 264-272): for each importance entry whose
index is in range, importance times the absolute feature value. -/
def raw_contributions (imp : List (String × ℚ)) (f : HeartRateFeatures) :
    List (String × ℚ) :=
  imp.enum.filterMap fun iw =>
    if iw.1 < (extract_features_from_object f).length then
      some (iw.2.1, iw.2.2 * |(extract_features_from_object f).getD iw.1 0|)
    else none

/-- `_get_contributing_factors` (lines 258-279).  `if not
self.feature_importance` is true both for `None` and for an empty dict. -/
def get_contributing_factors (feature_importance : Option (List (String × ℚ)))
    (f : HeartRateFeatures) : List (String × ℚ) :=
  match feature_importance with
  | none => []
  | some imp =>
      if imp.isEmpty then []
      else if 0 < ((raw_contributions imp f).map Prod.snd).sum then
        (raw_contributions imp f).map
          (fun p => (p.1, p.2 / ((raw_contributions imp f).map Prod.snd).sum))
      else raw_contributions imp f

/-- The level-specific boilerplate block of `_generate_recommendations`
(lines 286-307). -/
def level_recommendations (risk_level : String) (risk_score : ℚ) : List String :=
  if risk_level = "critical" ∨ 0.9 < risk_score then
    ["IMMEDIATE ATTENTION REQUIRED", "Consider emergency response",
     "Check officer status immediately", "Activate backup support"]
  else if risk_level = "high" ∨ 0.7 < risk_score then
    ["High risk detected - monitor closely", "Consider taking a break",
     "Check for signs of stress or fatigue", "Ensure backup is available"]
  else if risk_level = "medium" ∨ 0.4 < risk_score then
    ["Moderate risk - continue monitoring", "Consider reducing intensity",
     "Stay alert for changes"]
  else ["All clear - continue normal operations"]

/-- The feature-specific add-on block of `_generate_recommendations`
(lines 309-320). -/
def feature_addons (f : HeartRateFeatures) (is_anomaly : Bool) : List String :=
  (if 0.7 < f.stress_indicator then
    ["High stress detected - consider stress management"] else [])
  ++ (if 0.6 < f.fatigue_indicator then
    ["Fatigue detected - consider rest"] else [])
  ++ (if 0.8 < f.hr_anomaly_score then
    ["Unusual heart rate pattern - investigate"] else [])
  ++ (if is_anomaly then
    ["Anomalous pattern detected - manual review recommended"] else [])

/-- `_generate_recommendations` (lines 281-322): the boilerplate block
followed by the sequentially appended add-ons. -/
def generate_recommendations (risk_level : String) (risk_score : ℚ)
    (f : HeartRateFeatures) (is_anomaly : Bool) : List String :=
  level_recommendations risk_level risk_score ++ feature_addons f is_anomaly

/-- `RiskPrediction` (lines 21-29); the wall-clock timestamp is omitted. -/
structure RiskPrediction where
  risk_level : String
  risk_score : ℚ
  confidence : ℚ
  contributing_factors : List (String × ℚ)
  recommendations : List String
deriving DecidableEq, Repr

/-- `_create_default_prediction` (lines 324-348): the rule-based fallback on
the current rate alone. -/
def create_default_prediction (f : HeartRateFeatures) : RiskPrediction :=
  let level_score : String × ℚ :=
    if 0 < f.current_hr then
      if 180 < f.current_hr then ("critical", 0.9)
      else if 160 < f.current_hr then ("high", 0.7)
      else if 140 < f.current_hr then ("medium", 0.4)
      else ("low", 0)
    else ("low", 0)
  { risk_level := level_score.1
    risk_score := level_score.2
    confidence := 0.5
    contributing_factors := []
    recommendations := ["Model not trained - using basic rules"] }

/-- A fitted classifier: class labels and `predict_proba` on one scaled
feature row (abstract; scikit-learn internals are outside the repository). -/
structure Classifier where
  classes : List String
  predict_proba : List ℚ → List ℚ

/-- A fitted anomaly detector: `decision_function` on one scaled row. -/
structure AnomalyDetector where
  decision_function : List ℚ → ℚ

/-- The mutable state of `RiskAssessmentModel` (lines 34-47).  The freshly
constructed unfitted scaler and anomaly detector are placeholders: the
trained prediction path is only reached once `is_trained` is set, which the
modelled operations do only together with installing fitted objects. -/
structure ModelState where
  model : Option Classifier
  scaler : List ℚ → List ℚ
  anomaly_detector : AnomalyDetector
  is_trained : Bool
  feature_importance : Option (List (String × ℚ))
  risk_thresholds : List (String × ℚ)

/-- `RiskAssessmentModel.__init__` (lines 34-47). -/
def initial_model : ModelState :=
  { model := none
    scaler := fun x => x
    anomaly_detector := ⟨fun _ => 0⟩
    is_trained := false
    feature_importance := none
    risk_thresholds := [("low", 0.3), ("medium", 0.6), ("high", 0.8), ("critical", 0.9)] }

/-- `np.argmax`: index of the first maximal entry. -/
def np_argmax (l : List ℚ) : Nat :=
  (l.enum.foldl (fun best p => if best.2 < p.2 then p else best) (0, l.headD 0)).1

/-- `_calculate_risk_score` (lines 242-256): probability-weighted score with
fixed class weights. -/
def calculate_risk_score (risk_proba : List ℚ) (risk_classes : List String) : ℚ :=
  let risk_weights : List (String × ℚ) :=
    [("low", 0.1), ("medium", 0.4), ("high", 0.7), ("critical", 1)]
  (risk_classes.enum.map fun ic =>
    risk_proba.getD ic.1 0 * dict_get risk_weights ic.2 0).sum

/-- `predict_risk` (lines 114-162): rule-based fallback when untrained,
otherwise scale, classify, score, detect anomalies and explain. -/
def predict_risk (st : ModelState) (f : HeartRateFeatures) : RiskPrediction :=
  if st.is_trained then
    match st.model with
    | none => create_default_prediction f
    | some m =>
        let x_scaled := st.scaler (extract_features_from_object f)
        let risk_proba := m.predict_proba x_scaled
        let max_idx := np_argmax risk_proba
        let predicted_risk := m.classes.getD max_idx ""
        let confidence := risk_proba.getD max_idx 0
        let risk_score := calculate_risk_score risk_proba m.classes
        let anomaly_score := st.anomaly_detector.decision_function x_scaled
        let is_anomaly : Bool := anomaly_score < -0.1
        { risk_level := predicted_risk
          risk_score := risk_score
          confidence := confidence
          contributing_factors := get_contributing_factors st.feature_importance f
          recommendations :=
            generate_recommendations predicted_risk risk_score f is_anomaly }
  else create_default_prediction f

/-- The content of a successfully deserialized model file: the five entries
`save_model` stores (lines 350-363). -/
structure ModelBlob where
  model : Classifier
  scaler : List ℚ → List ℚ
  anomaly_detector : AnomalyDetector
  feature_importance : List (String × ℚ)
  risk_thresholds : List (String × ℚ)

/-- `load_model` (lines 365-377).  The whole body runs inside
`try/except Exception`: when `joblib.load` raises (missing or corrupt file)
nothing has been assigned yet, the handler logs and the state is returned as
it was; on success all five fields are installed and `is_trained` is set. -/
def load_model (st : ModelState) (outcome : Except String ModelBlob) : ModelState :=
  match outcome with
  | .error _ => st
  | .ok b =>
      { model := some b.model
        scaler := b.scaler
        anomaly_detector := b.anomaly_detector
        is_trained := true
        feature_importance := some b.feature_importance
        risk_thresholds := b.risk_thresholds }

/-- Claim C4 (amended): when `load_model` fails (corrupt or missing model
file, i.e. `joblib.load` raises) the error does not propagate and the model
state is left entirely unchanged — no field is partially mutated and
`is_trained` keeps its prior value, so a model that was untrained stays in
rule-based fallback mode. -/
theorem c4_load_failure_state_unchanged (st : ModelState) (e : String) :
    load_model st (.error e) = st ∧
    (st.is_trained = false → (load_model st (.error e)).is_trained = false) :=
  ⟨rfl, fun h => h⟩

/-- Witness for C4 on a fresh (untrained) model and a missing file. -/
theorem c4_load_failure_witness :
    load_model initial_model (.error "missing model file") = initial_model ∧
    initial_model.is_trained = false ∧
    (load_model initial_model (.error "missing model file")).is_trained = false :=
  ⟨(c4_load_failure_state_unchanged initial_model "missing model file").1, rfl,
    (c4_load_failure_state_unchanged initial_model "missing model file").2 rfl⟩

/-- An 18-entry importance mapping of the shape `train` produces
(`feature_names` zipped with importances). -/
def uniform_importance : List (String × ℚ) :=
  feature_names.map fun n => (n, 1 / 18)

/-- A previously trained model state. -/
def trained_model_example : ModelState :=
  { model := some ⟨["critical", "high", "low", "medium"], fun _ => [0, 0, 1, 0]⟩
    scaler := fun x => x
    anomaly_detector := ⟨fun _ => 1⟩
    is_trained := true
    feature_importance := some uniform_importance
    risk_thresholds := [("low", 0.3), ("medium", 0.6), ("high", 0.8), ("critical", 0.9)] }

/-- Claim C4 counterexample: a failing `load_model` call on a previously
trained model leaves `is_trained = true`, not `false` as the claim states —
the handler only logs, it never resets the flag. -/
theorem c4_counterexample :
    (load_model trained_model_example (.error "corrupt model file")).is_trained = true :=
  rfl

/-- A feature vector with the given current rate and every other extracted
numeric field 0 (the shape of the intended warm-up default vector). -/
def features_hr (c : ℚ) : HeartRateFeatures :=
  { current_hr := c, mean_hr := 0, std_hr := 0, min_hr := 0, max_hr := 0
    hr_trend := 0, hr_acceleration := 0, rmssd := 0, sdnn := 0, pnn50 := 0
    resting_hr := 60, hr_reserve := 0, intensity_zone := "unknown"
    intensity_percentage := 0, hr_anomaly_score := 0, stress_indicator := 0
    fatigue_indicator := 0, time_since_start := 0, recent_activity := "unknown"
    timestamp := 0 }

theorem default_prediction_level_score (c : ℚ) :
    (if 0 < c then
       if 180 < c then ("critical", (0.9 : ℚ))
       else if 160 < c then ("high", 0.7)
       else if 140 < c then ("medium", 0.4)
       else ("low", 0)
     else ("low", 0)) =
    (if 180 < c then ("critical", (0.9 : ℚ))
     else if 160 < c then ("high", 0.7)
     else if 140 < c then ("medium", 0.4)
     else ("low", 0)) := by
  by_cases h0 : 0 < c
  · rw [if_pos h0]
  · have hc : c ≤ 0 := le_of_not_lt h0
    rw [if_neg h0, if_neg (by linarith : ¬ 180 < c), if_neg (by linarith : ¬ 160 < c),
      if_neg (by linarith : ¬ 140 < c)]

/-- Claim C8: with an untrained classifier, `predict_risk` is the rule-based
fallback on the current rate alone — thresholds `>180 → critical/0.9`,
`>160 → high/0.7`, `>140 → medium/0.4`, otherwise `low/0.0` — with fixed
confidence 0.5, empty contributing factors and the single fallback-mode
recommendation; the output depends on nothing but the current rate. -/
theorem c8_untrained_fallback (st : ModelState) (f : HeartRateFeatures)
    (h : st.is_trained = false) :
    predict_risk st f = create_default_prediction f ∧
    (predict_risk st f).confidence = 0.5 ∧
    (predict_risk st f).contributing_factors = [] ∧
    (predict_risk st f).recommendations = ["Model not trained - using basic rules"] ∧
    ((predict_risk st f).risk_level, (predict_risk st f).risk_score) =
      (if 180 < f.current_hr then ("critical", (0.9 : ℚ))
       else if 160 < f.current_hr then ("high", 0.7)
       else if 140 < f.current_hr then ("medium", 0.4)
       else ("low", 0)) ∧
    (∀ (st' : ModelState) (f' : HeartRateFeatures), st'.is_trained = false →
      f'.current_hr = f.current_hr → predict_risk st' f' = predict_risk st f) := by
  have hp : predict_risk st f = create_default_prediction f := by
    simp [predict_risk, h]
  refine ⟨hp, by rw [hp]; rfl, by rw [hp]; rfl, by rw [hp]; rfl, ?_, ?_⟩
  · rw [hp]
    show (if 0 < f.current_hr then _ else _) = _
    exact default_prediction_level_score f.current_hr
  · intro st' f' h' hcur
    have hp' : predict_risk st' f' = create_default_prediction f' := by
      simp [predict_risk, h']
    rw [hp, hp']
    unfold create_default_prediction
    rw [hcur]

/-- Witness for C8 on a fresh model at current rates 181 and 100. -/
theorem c8_untrained_fallback_witness :
    initial_model.is_trained = false ∧
    (predict_risk initial_model (features_hr 181)).risk_level = "critical" ∧
    (predict_risk initial_model (features_hr 181)).risk_score = 0.9 ∧
    (predict_risk initial_model (features_hr 100)).risk_level = "low" ∧
    (predict_risk initial_model (features_hr 100)).risk_score = 0 := by
  have h1 := (c8_untrained_fallback initial_model (features_hr 181) rfl).2.2.2.2.1
  have h2 := (c8_untrained_fallback initial_model (features_hr 100) rfl).2.2.2.2.1
  have hc1 : (features_hr 181).current_hr = 181 := rfl
  have hc2 : (features_hr 100).current_hr = 100 := rfl
  rw [hc1, if_pos (by norm_num : (180 : ℚ) < 181)] at h1
  rw [hc2, if_neg (by norm_num : ¬ (180 : ℚ) < 100),
    if_neg (by norm_num : ¬ (160 : ℚ) < 100), if_neg (by norm_num : ¬ (140 : ℚ) < 100)] at h2
  exact ⟨rfl, congrArg Prod.fst h1, congrArg Prod.snd h1,
    congrArg Prod.fst h2, congrArg Prod.snd h2⟩

/-- Claim C5 (amended): the recommendation list is the level-specific
boilerplate followed by the feature-specific add-ons (stress > 0.7,
fatigue > 0.6, anomaly score > 0.8, anomaly-detector flag), and the "all
clear" message appears exactly when the risk level is none of
critical/high/medium and the risk score is at most 0.4 — regardless of
whether any add-on triggers. -/
theorem c5_recommendation_structure (risk_level : String) (risk_score : ℚ)
    (f : HeartRateFeatures) (is_anomaly : Bool) :
    generate_recommendations risk_level risk_score f is_anomaly =
      level_recommendations risk_level risk_score ++ feature_addons f is_anomaly ∧
    "All clear - continue normal operations" ∉ feature_addons f is_anomaly ∧
    ("All clear - continue normal operations" ∈
        generate_recommendations risk_level risk_score f is_anomaly ↔
      risk_level ≠ "critical" ∧ risk_level ≠ "high" ∧ risk_level ≠ "medium" ∧
        risk_score ≤ 0.4) := by
  have haddon : "All clear - continue normal operations" ∉ feature_addons f is_anomaly := by
    unfold feature_addons
    split_ifs <;> decide
  refine ⟨rfl, haddon, ?_⟩
  show _ ∈ level_recommendations risk_level risk_score ++ feature_addons f is_anomaly ↔ _
  rw [List.mem_append, or_iff_left haddon]
  unfold level_recommendations
  split_ifs with h1 h2 h3
  · refine iff_of_false (by decide) ?_
    rintro ⟨hc, -, -, hs⟩
    rcases h1 with h | h
    · exact hc h
    · linarith
  · refine iff_of_false (by decide) ?_
    rintro ⟨-, hh, -, hs⟩
    rcases h2 with h | h
    · exact hh h
    · linarith
  · refine iff_of_false (by decide) ?_
    rintro ⟨-, -, hm, hs⟩
    rcases h3 with h | h
    · exact hm h
    · linarith
  · push_neg at h1 h2 h3
    exact iff_of_true (by decide) ⟨h1.1, h2.1, h3.1, h3.2⟩

/-- The warm-up-shaped vector with a high stress indicator. -/
def stressed_features : HeartRateFeatures :=
  { features_hr 0 with stress_indicator := 0.8 }

/-- Claim C5 counterexample: at risk level "low" with score 0 and stress
indicator 0.8, the "all clear" message and the stress add-on appear in the
same output — so "all clear" does not appear only when no add-on condition
triggers. -/
theorem c5_counterexample :
    (0.7 : ℚ) < stressed_features.stress_indicator ∧
    "All clear - continue normal operations" ∈
      generate_recommendations "low" 0 stressed_features false ∧
    "High stress detected - consider stress management" ∈
      generate_recommendations "low" 0 stressed_features false := by
  norm_num [generate_recommendations, level_recommendations, feature_addons,
    stressed_features, features_hr,
    (show ("low" : String) ≠ "critical" by decide),
    (show ("low" : String) ≠ "high" by decide),
    (show ("low" : String) ≠ "medium" by decide)]

/-- Witness for C5 at concrete arguments. -/
theorem c5_recommendation_structure_witness :
    "All clear - continue normal operations" ∉ feature_addons (features_hr 0) false ∧
    ("All clear - continue normal operations" ∈
        generate_recommendations "low" 0 (features_hr 0) false ↔
      ("low" : String) ≠ "critical" ∧ ("low" : String) ≠ "high" ∧
        ("low" : String) ≠ "medium" ∧ (0 : ℚ) ≤ 0.4) :=
  ⟨(c5_recommendation_structure "low" 0 (features_hr 0) false).2.1,
    (c5_recommendation_structure "low" 0 (features_hr 0) false).2.2⟩

theorem filterMap_enumFrom_lt {α β : Type} (g : ℕ × α → β) (N : ℕ) :
    ∀ (l : List α) (n : ℕ), n + l.length ≤ N →
      (List.enumFrom n l).filterMap
          (fun iw => if iw.1 < N then some (g iw) else none) =
        (List.enumFrom n l).map g := by
  intro l
  induction l with
  | nil => intro n _; rfl
  | cons a t ih =>
      intro n h
      have hn : n < N := by
        simp only [List.length_cons] at h
        omega
      have ht : n + 1 + t.length ≤ N := by
        simp only [List.length_cons] at h
        omega
      simp only [List.enumFrom_cons, List.filterMap_cons, List.map_cons, hn, if_true,
        ih (n + 1) ht]

theorem raw_contributions_eq_map (imp : List (String × ℚ)) (f : HeartRateFeatures)
    (h : imp.length ≤ (extract_features_from_object f).length) :
    raw_contributions imp f = imp.enum.map
      (fun iw => (iw.2.1, iw.2.2 * |(extract_features_from_object f).getD iw.1 0|)) := by
  unfold raw_contributions
  exact filterMap_enumFrom_lt _ _ imp 0 (by simpa using h)

theorem getD_replicate_zero (n i : ℕ) : (List.replicate n (0 : ℚ)).getD i 0 = 0 := by
  induction n generalizing i with
  | zero => simp
  | succ m ih =>
      cases i with
      | zero => simp [List.replicate_succ]
      | succ j => simp [List.replicate_succ, ih]

theorem list_sum_map_snd_div (l : List (String × ℚ)) (c : ℚ) :
    ((l.map fun p => (p.1, p.2 / c)).map Prod.snd).sum = (l.map Prod.snd).sum / c := by
  induction l with
  | nil => simp
  | cons a t ih => simp only [List.map_cons, List.sum_cons, ih, add_div]

/-- Claim C2 (amended): an untrained model yields empty contributing
factors; with a trained importance mapping the factors sum to 1 whenever the
total importance-weighted contribution is positive; but when the total is
not positive the unnormalized contribution mapping is returned as is — for a
non-empty importance mapping a non-empty all-zero mapping, not the empty
mapping. -/
theorem c2_contributing_factors (st : ModelState) (f : HeartRateFeatures)
    (imp : List (String × ℚ)) :
    (st.is_trained = false → (predict_risk st f).contributing_factors = []) ∧
    (0 < ((raw_contributions imp f).map Prod.snd).sum →
      ((get_contributing_factors (some imp) f).map Prod.snd).sum = 1) ∧
    (¬ 0 < ((raw_contributions imp f).map Prod.snd).sum → imp.isEmpty = false →
      get_contributing_factors (some imp) f = raw_contributions imp f) := by
  refine ⟨?_, ?_, ?_⟩
  · intro h
    simp [predict_risk, h, create_default_prediction]
  · intro htot
    rcases imp with _ | ⟨p, t⟩
    · exact absurd htot (by simp [raw_contributions])
    · have heq : get_contributing_factors (some (p :: t)) f =
          (raw_contributions (p :: t) f).map
            (fun q => (q.1, q.2 / ((raw_contributions (p :: t) f).map Prod.snd).sum)) := by
        simp [get_contributing_factors, htot]
      rw [heq, list_sum_map_snd_div]
      exact div_self (ne_of_gt htot)
  · intro htot hne
    rcases imp with _ | ⟨p, t⟩
    · simp at hne
    · simp [get_contributing_factors, htot]

/-- Claim C2 counterexample: a trained importance mapping together with the
all-zero warm-up feature vector gives a zero total contribution, and the
returned mapping is non-empty while summing to 0 — not the empty mapping
required by the claim, and not summing to 1 despite being non-empty. -/
theorem c2_counterexample :
    get_contributing_factors (some uniform_importance) (features_hr 0) ≠ [] ∧
    ((get_contributing_factors (some uniform_importance) (features_hr 0)).map
        Prod.snd).sum = 0 := by
  have h18 : extract_features_from_object (features_hr 0) = List.replicate 18 0 := rfl
  have hmap := raw_contributions_eq_map uniform_importance (features_hr 0)
    (by rw [h18]; decide)
  have htot : ((raw_contributions uniform_importance (features_hr 0)).map
      Prod.snd).sum = 0 := by
    rw [hmap]
    apply List.sum_eq_zero
    intro x hx
    simp only [List.map_map, List.mem_map, Function.comp] at hx
    obtain ⟨iw, -, rfl⟩ := hx
    rw [h18, getD_replicate_zero, abs_zero, mul_zero]
  have hresult : get_contributing_factors (some uniform_importance) (features_hr 0) =
      raw_contributions uniform_importance (features_hr 0) := by
    simp [get_contributing_factors, htot]
    intro h
    simp [uniform_importance, feature_names] at h
  refine ⟨?_, ?_⟩
  · rw [hresult, hmap]
    intro hnil
    have hlen := congrArg List.length hnil
    simp [List.enum_length, uniform_importance, feature_names] at hlen
  · rw [hresult]
    exact htot

/-- Witness for C2 on a fresh model and on a positive-total vector. -/
theorem c2_contributing_factors_witness :
    initial_model.is_trained = false ∧
    (predict_risk initial_model (features_hr 100)).contributing_factors = [] ∧
    0 < ((raw_contributions [("current_hr", 1)] (features_hr 181)).map Prod.snd).sum ∧
    ((get_contributing_factors (some [("current_hr", 1)]) (features_hr 181)).map
        Prod.snd).sum = 1 := by
  have hone : raw_contributions [("current_hr", 1)] (features_hr 181) =
      [("current_hr", 1 * |(181 : ℚ)|)] := rfl
  have hpos : 0 < ((raw_contributions [("current_hr", 1)] (features_hr 181)).map
      Prod.snd).sum := by
    rw [hone]
    simp only [List.map_cons, List.map_nil, List.sum_cons, List.sum_nil, add_zero, one_mul]
    rw [abs_of_pos (by norm_num : (0 : ℚ) < 181)]
    norm_num
  exact ⟨rfl,
    (c2_contributing_factors initial_model (features_hr 100) [("current_hr", 1)]).1 rfl,
    hpos,
    (c2_contributing_factors initial_model (features_hr 181) [("current_hr", 1)]).2.1 hpos⟩

/-! ## Real-valued statistics and the anomaly score
(`heart_rate_features.py` lines 257-272)

`np.std`/`np.sqrt` force real numbers; this part of the development is
noncomputable and concrete values are evaluated with `norm_num`. -/

noncomputable section
open Classical

/-- `np.mean`. -/
def np_mean (l : List ℝ) : ℝ := l.sum / l.length

/-- Population variance, the square of `np.std`. -/
def np_var (l : List ℝ) : ℝ :=
  (l.map fun x => (x - np_mean l) ^ 2).sum / l.length

/-- `np.std`: population standard deviation. -/
def np_std (l : List ℝ) : ℝ := Real.sqrt (np_var l)

/-- `_calculate_anomaly_score` (lines 257-272): z-score of the latest value
against mean/std of all prior values (`hr_values[:-1]`), divided by 3 and
clipped at 1; 0.0 for fewer than 3 samples or a zero prior deviation. -/
def calculate_anomaly_score (hr_values : List ℝ) : ℝ :=
  if hr_values.length < 3 then 0
  else
    if 0 < np_std hr_values.dropLast then
      min (|hr_values.getLastD 0 - np_mean hr_values.dropLast| /
        np_std hr_values.dropLast / 3) 1
    else 0

theorem np_var_nonneg (l : List ℝ) : 0 ≤ np_var l := by
  unfold np_var
  apply div_nonneg _ (Nat.cast_nonneg _)
  apply List.sum_nonneg
  intro x hx
  obtain ⟨y, -, rfl⟩ := List.mem_map.mp hx
  positivity

theorem np_var_pos_length (l : List ℝ) (h : 0 < np_var l) : 2 ≤ l.length := by
  by_contra hlt
  push_neg at hlt
  rcases l with _ | ⟨a, _ | ⟨b, t⟩⟩
  · simp [np_var, np_mean] at h
  · simp [np_var, np_mean] at h
  · simp at hlt
    omega

theorem anomaly_score_formula (prior : List ℝ) (x : ℝ) (h2 : 2 ≤ prior.length)
    (hv : 0 < np_var prior) :
    calculate_anomaly_score (prior ++ [x]) =
      min (|x - np_mean prior| / np_std prior / 3) 1 := by
  unfold calculate_anomaly_score
  have hlen : ¬ (prior ++ [x]).length < 3 := by
    simp only [List.length_append, List.length_singleton]
    omega
  have hdrop : (prior ++ [x]).dropLast = prior := by simp
  have hlast : (prior ++ [x]).getLastD 0 = x := by simp
  rw [if_neg hlen, hdrop, hlast,
    if_pos (show 0 < np_std prior from Real.sqrt_pos.mpr hv)]

theorem anomaly_score_mem_Icc (values : List ℝ) :
    0 ≤ calculate_anomaly_score values ∧ calculate_anomaly_score values ≤ 1 := by
  unfold calculate_anomaly_score
  split_ifs with h1 h2
  · exact ⟨le_rfl, zero_le_one⟩
  · constructor
    · apply le_min _ zero_le_one
      have hstd := le_of_lt h2
      positivity
    · exact min_le_right _ 1
  · exact ⟨le_rfl, zero_le_one⟩

theorem anomaly_score_zero (values : List ℝ)
    (h : values.length < 3 ∨ np_var values.dropLast = 0) :
    calculate_anomaly_score values = 0 := by
  unfold calculate_anomaly_score
  rcases h with h | h
  · rw [if_pos h]
  · split_ifs with h1 h2
    · rfl
    · exfalso
      rw [np_std, h, Real.sqrt_zero] at h2
      exact lt_irrefl 0 h2
    · rfl

/-- Claim C7: for windows of at least 3 samples with positive prior variance
the anomaly score is the 3-sigma-normalized clipped z-score of the latest
value against the prior values; it is monotone non-decreasing in
`|latest - priorMean|` at fixed prior variance, always lies in `[0,1]`, and
is 0 for fewer than 3 samples or zero prior variance. -/
theorem c7_anomaly_score (prior : List ℝ) (x : ℝ) :
    (2 ≤ prior.length → 0 < np_var prior →
      calculate_anomaly_score (prior ++ [x]) =
        min (|x - np_mean prior| / np_std prior / 3) 1) ∧
    (∀ (q : List ℝ) (y : ℝ), np_var prior = np_var q →
      |x - np_mean prior| ≤ |y - np_mean q| →
      calculate_anomaly_score (prior ++ [x]) ≤ calculate_anomaly_score (q ++ [y])) ∧
    (∀ values : List ℝ,
      0 ≤ calculate_anomaly_score values ∧ calculate_anomaly_score values ≤ 1) ∧
    (∀ values : List ℝ, values.length < 3 ∨ np_var values.dropLast = 0 →
      calculate_anomaly_score values = 0) := by
  refine ⟨anomaly_score_formula prior x, ?_, anomaly_score_mem_Icc, anomaly_score_zero⟩
  intro q y hvar habs
  by_cases hv : 0 < np_var prior
  · have hv2 : 0 < np_var q := hvar ▸ hv
    have hstd : 0 < np_std prior := Real.sqrt_pos.mpr hv
    have hstd_eq : np_std prior = np_std q := by rw [np_std, np_std, hvar]
    rw [anomaly_score_formula prior x (np_var_pos_length prior hv) hv,
      anomaly_score_formula q y (np_var_pos_length q hv2) hv2, ← hstd_eq]
    apply min_le_min _ le_rfl
    rw [div_le_div_iff_of_pos_right (by norm_num : (0 : ℝ) < 3),
      div_le_div_iff_of_pos_right hstd]
    exact habs
  · have hvar0 : np_var prior = 0 :=
      le_antisymm (not_lt.mp hv) (np_var_nonneg prior)
    have hz : calculate_anomaly_score (prior ++ [x]) = 0 := by
      apply anomaly_score_zero
      right
      rw [show (prior ++ [x]).dropLast = prior by simp]
      exact hvar0
    rw [hz]
    exact (anomaly_score_mem_Icc (q ++ [y])).1

/-- Witness for C7 at the window `[0, 2, 4]` (prior mean 1, prior variance 1)
and its monotonicity against latest value 5. -/
theorem c7_anomaly_score_witness :
    2 ≤ ([0, 2] : List ℝ).length ∧ 0 < np_var [0, 2] ∧
    calculate_anomaly_score ([0, 2] ++ [4]) =
      min (|4 - np_mean [0, 2]| / np_std [0, 2] / 3) 1 ∧
    calculate_anomaly_score ([0, 2] ++ [4]) ≤ calculate_anomaly_score ([0, 2] ++ [5]) ∧
    calculate_anomaly_score ([0] ++ [5]) = 0 := by
  have hmean : np_mean ([0, 2] : List ℝ) = 1 := by
    norm_num [np_mean]
  have hvar : 0 < np_var ([0, 2] : List ℝ) := by
    norm_num [np_var, hmean]
  refine ⟨by norm_num, hvar,
    (c7_anomaly_score [0, 2] 4).1 (by norm_num) hvar,
    (c7_anomaly_score [0, 2] 4).2.1 [0, 2] 5 rfl (by rw [hmean]; norm_num),
    (c7_anomaly_score [0] 5).2.2.2 ([0] ++ [5]) (Or.inl (by norm_num))⟩

/-! ## The multi-factor risk scorer (`src/server/app/risk/scorer.py`)

Request-level inputs are modelled as option-typed snapshots; Python
truthiness (`if health_data and health_data.heart_rate:`) is made explicit.
The historical factor's database query is summarized by the list of rows it
returns (heart-rate column, most recent first, at most 10 by `limit`). -/

/-- `RiskLevel` (`src/server/app/schemas.py` lines 11-14): the scorer's level
enum has exactly the members low, medium and high. -/
inductive RiskLevel where
  | low
  | medium
  | high
deriving DecidableEq, Repr

/-- The string value of each `RiskLevel` member. -/
def RiskLevel.toStr : RiskLevel → String
  | .low => "low"
  | .medium => "medium"
  | .high => "high"

/-- The health-data row as the scorer reads it. -/
structure HealthSnapshot where
  heart_rate : Option ℝ
  heart_rate_variability : Option ℝ
  acceleration : Option (List (String × ℝ))
  activity_type : Option String
  activity_confidence : Option ℝ
  fall_detected : Bool

/-- The location-data row as the scorer reads it. -/
structure LocationSnapshot where
  accuracy : Option ℝ
  horizontal_accuracy : Option ℝ

/-- Python truthiness of an optional float: `None` and `0.0` are falsy. -/
def float_truthy : Option ℝ → Prop
  | none => False
  | some v => v ≠ 0

/-- Python truthiness of an optional string: `None` and `""` are falsy. -/
def str_truthy : Option String → Prop
  | none => False
  | some s => s ≠ ""

/-- Python truthiness of an optional dict: `None` and `{}` are falsy. -/
def dict_truthy : Option (List (String × ℝ)) → Prop
  | none => False
  | some d => d ≠ []

/-- `x or y` on optional floats: the left value unless it is falsy. -/
def py_or_opt (a b : Option ℝ) : Option ℝ :=
  match a with
  | some v => if v = 0 then b else some v
  | none => b

/-- `RiskScorer.__init__` weights (lines 25-32). -/
def scorer_weights : List (String × ℝ) :=
  [("heart_rate", 0.25), ("heart_rate_variability", 0.20), ("motion", 0.20),
   ("fall_detection", 0.15), ("activity", 0.10), ("location", 0.10)]

/-- `_analyze_heart_rate` (lines 123-140). -/
def analyze_heart_rate (heart_rate : ℝ) : ℝ :=
  if heart_rate < 50 then 0.8
  else if heart_rate < 60 then 0.3
  else if heart_rate ≤ 100 then 0
  else if heart_rate ≤ 150 then 0.4
  else if heart_rate ≤ 180 then 0.7
  else 1

/-- `_analyze_hrv` (lines 142-156). -/
def analyze_hrv (hrv : ℝ) : ℝ :=
  if hrv < 15 then 0.9
  else if hrv < 20 then 0.7
  else if hrv < 30 then 0.4
  else if hrv ≤ 50 then 0
  else 0.2

/-- `_analyze_motion` (lines 158-184): Euclidean norm of the acceleration
dict entries (`.get` with default 0), bucketed. -/
def analyze_motion (h : HealthSnapshot) : ℝ :=
  match h.acceleration with
  | none => 0
  | some accel =>
      if accel = [] then 0
      else
        let m := Real.sqrt (dict_get accel "x" 0 ^ 2 + dict_get accel "y" 0 ^ 2 +
          dict_get accel "z" 0 ^ 2)
        if m < 0.5 then 0.6
        else if m < 1 then 0.3
        else if m ≤ 3 then 0
        else if m ≤ 6 then 0.4
        else 0.8

/-- `_analyze_activity` (lines 186-203). -/
def analyze_activity (h : HealthSnapshot) : ℝ :=
  let activity_risk := dict_get
    [("stationary", 0), ("walking", 0.1), ("running", 0.3), ("cycling", 0.2),
     ("unknown", 0.5)] (h.activity_type.getD "") 0.5
  let confidence := (py_or_opt h.activity_confidence (some 0)).getD 0
  activity_risk * (1 + (1 - confidence))

/-- `_analyze_location` (lines 205-217): only the accuracy check; the
hazardous-zone lookup is an extension point returning the base risk 0. -/
def analyze_location (loc : LocationSnapshot) : ℝ :=
  match py_or_opt loc.accuracy loc.horizontal_accuracy with
  | none => 0
  | some a => if a ≠ 0 ∧ 100 < a then 0.3 else 0

/-- Least-squares slope of `np.polyfit(range(n), ys, 1)`. -/
def ols_slope (ys : List ℝ) : ℝ :=
  let n : ℝ := ys.length
  let xs : List ℝ := (List.range ys.length).map fun i => (i : ℝ)
  (n * ((xs.zip ys).map fun p => p.1 * p.2).sum - xs.sum * ys.sum) /
    (n * (xs.map fun x => x ^ 2).sum - xs.sum ^ 2)

/-- `_analyze_historical_context` (lines 219-247), given the rows the query
returns (heart-rate column, most recent first, at most 10). -/
def analyze_historical_context (recent_health : List (Option ℝ)) : ℝ :=
  if recent_health = [] then 0
  else
    let heart_rates := recent_health.filterMap fun o =>
      match o with
      | some v => if v = 0 then none else some v
      | none => none
    if 3 < heart_rates.length then
      if 5 < ols_slope heart_rates then 0.3
      else if ols_slope heart_rates < -5 then 0.2
      else 0
    else 0

/-- `_calculate_confidence` (lines 249-267): all recorded scores are floats,
so the `is not None` filter keeps every entry and `available_factors` is the
number of recorded factors; `max_factors = len(self.weights) = 6`. -/
def calculate_confidence (factors : List (String × ℝ)) : ℝ :=
  if factors.isEmpty then 0
  else
    ((factors.length : ℝ) / (scorer_weights.length : ℝ) +
      (if 1 < factors.length then 1 - np_std (factors.map Prod.snd) else 0.5)) / 2

/-- `_generate_recommendations` of the scorer (lines 269-294). -/
def scorer_recommendations (factors : List (String × ℝ)) (total_score : ℝ) :
    List String :=
  let recs :=
    (if 0.7 ≤ total_score then
      ["IMMEDIATE ATTENTION REQUIRED - High risk detected"] else [])
    ++ (if 0.7 < dict_get factors "heart_rate" 0 then
      ["Monitor heart rate - elevated levels detected"] else [])
    ++ (if 0.7 < dict_get factors "heart_rate_variability" 0 then
      ["Check officer stress levels - low HRV detected"] else [])
    ++ (if 0.7 < dict_get factors "motion" 0 then
      ["Unusual motion patterns detected - check officer status"] else [])
    ++ (if 0.5 < dict_get factors "fall_detection" 0 then
      ["FALL DETECTED - Immediate response required"] else [])
    ++ (if 0.5 < dict_get factors "activity" 0 then
      ["High activity levels - monitor for fatigue"] else [])
  if recs = [] then ["All systems normal - continue monitoring"] else recs

/-- The factor accumulation of `calculate_risk` (lines 44-90): each recorded
factor is appended to the insertion-ordered dict and its weighted score added
to the running total. -/
def calculate_risk_factors_total (health_data : Option HealthSnapshot)
    (location_data : Option LocationSnapshot) (db : Option (List (Option ℝ))) :
    List (String × ℝ) × ℝ :=
  let s0 : List (String × ℝ) × ℝ := ([], 0)
  let s1 := match health_data with
    | some h =>
        if float_truthy h.heart_rate then
          (s0.1 ++ [("heart_rate", analyze_heart_rate (h.heart_rate.getD 0))],
           s0.2 + analyze_heart_rate (h.heart_rate.getD 0) *
             dict_get scorer_weights "heart_rate" 0)
        else s0
    | none => s0
  let s2 := match health_data with
    | some h =>
        if float_truthy h.heart_rate_variability then
          (s1.1 ++ [("heart_rate_variability",
              analyze_hrv (h.heart_rate_variability.getD 0))],
           s1.2 + analyze_hrv (h.heart_rate_variability.getD 0) *
             dict_get scorer_weights "heart_rate_variability" 0)
        else s1
    | none => s1
  let s3 := match health_data with
    | some h =>
        if dict_truthy h.acceleration then
          (s2.1 ++ [("motion", analyze_motion h)],
           s2.2 + analyze_motion h * dict_get scorer_weights "motion" 0)
        else s2
    | none => s2
  let s4 :=
    if (match health_data with | some h => h.fall_detected | none => false) then
      (s3.1 ++ [("fall_detection", 1)],
       s3.2 + 1 * dict_get scorer_weights "fall_detection" 0)
    else (s3.1 ++ [("fall_detection", 0)], s3.2)
  let s5 := match health_data with
    | some h =>
        if str_truthy h.activity_type then
          (s4.1 ++ [("activity", analyze_activity h)],
           s4.2 + analyze_activity h * dict_get scorer_weights "activity" 0)
        else s4
    | none => s4
  let s6 := match location_data with
    | some loc =>
        (s5.1 ++ [("location", analyze_location loc)],
         s5.2 + analyze_location loc * dict_get scorer_weights "location" 0)
    | none => s5
  match db with
  | some rows =>
      (s6.1 ++ [("historical", analyze_historical_context rows)],
       s6.2 + analyze_historical_context rows * 0.1)
  | none => s6

/-- The threshold block of `calculate_risk` (lines 96-101), applied to the
clamped total score; `high_risk_threshold = 0.7`, `medium_risk_threshold =
0.4`. -/
def risk_level_of (total_score : ℝ) : RiskLevel :=
  if 0.7 ≤ total_score then .high
  else if 0.4 ≤ total_score then .medium
  else .low

/-- The scorer's result dict (lines 103-110); the timestamp is omitted. -/
structure RiskResult where
  risk_score : ℝ
  risk_level : RiskLevel
  factors : List (String × ℝ)
  confidence : ℝ
  recommendations : List String

/-- `calculate_risk` (lines 34-110), non-exception path: accumulate factors,
clamp the total to `[0,1]`, derive the level, confidence and
recommendations. -/
def calculate_risk (officer_id : String) (health_data : Option HealthSnapshot)
    (location_data : Option LocationSnapshot) (db : Option (List (Option ℝ))) :
    RiskResult :=
  let ft := calculate_risk_factors_total health_data location_data db
  let total_score := min (max ft.2 0) 1
  { risk_score := total_score
    risk_level := risk_level_of total_score
    factors := ft.1
    confidence := calculate_confidence ft.1
    recommendations := scorer_recommendations ft.1 total_score }

/-- Claim C10: for every non-exception result of `calculate_risk` the level
is determined solely by the clamped total score — HIGH iff `score ≥ 0.7`,
MEDIUM iff `0.4 ≤ score < 0.7`, LOW otherwise — and the scorer never returns
a critical level (its `RiskLevel` enum has no such member). -/
theorem c10_scorer_level_thresholds (officer_id : String)
    (health_data : Option HealthSnapshot) (location_data : Option LocationSnapshot)
    (db : Option (List (Option ℝ))) :
    ((calculate_risk officer_id health_data location_data db).risk_level =
        .high ↔
      0.7 ≤ (calculate_risk officer_id health_data location_data db).risk_score) ∧
    ((calculate_risk officer_id health_data location_data db).risk_level =
        .medium ↔
      0.4 ≤ (calculate_risk officer_id health_data location_data db).risk_score ∧
        (calculate_risk officer_id health_data location_data db).risk_score < 0.7) ∧
    ((calculate_risk officer_id health_data location_data db).risk_level =
        .low ↔
      (calculate_risk officer_id health_data location_data db).risk_score < 0.4) ∧
    ((calculate_risk officer_id health_data location_data db).risk_level).toStr ≠
      "critical" := by
  have hlev : (calculate_risk officer_id health_data location_data db).risk_level =
      risk_level_of
        ((calculate_risk officer_id health_data location_data db).risk_score) := rfl
  rw [hlev]
  unfold risk_level_of
  split_ifs with h1 h2
  · exact ⟨iff_of_true rfl h1,
      iff_of_false (by decide) (fun hc => absurd h1 (not_le.mpr hc.2)),
      iff_of_false (by decide) (fun hc => absurd h1 (not_le.mpr (by linarith))),
      by decide⟩
  · exact ⟨iff_of_false (by decide) h1,
      iff_of_true rfl ⟨h2, not_le.mp h1⟩,
      iff_of_false (by decide) (fun hc => absurd h2 (not_le.mpr hc)),
      by decide⟩
  · exact ⟨iff_of_false (by decide) h1,
      iff_of_false (by decide) (fun hc => absurd hc.1 h2),
      iff_of_true rfl (not_le.mp h2),
      by decide⟩

theorem np_mean_bounds (l : List ℝ) (hne : l ≠ []) (h0 : ∀ x ∈ l, 0 ≤ x)
    (h1 : ∀ x ∈ l, x ≤ 1) : 0 ≤ np_mean l ∧ np_mean l ≤ 1 := by
  have hlen : (0 : ℝ) < l.length := by exact_mod_cast List.length_pos.mpr hne
  constructor
  · exact div_nonneg (List.sum_nonneg h0) (le_of_lt hlen)
  · rw [np_mean, div_le_one hlen]
    have h := List.sum_le_card_nsmul l 1 h1
    simpa using h

theorem np_var_le_one (l : List ℝ) (hne : l ≠ []) (h0 : ∀ x ∈ l, 0 ≤ x)
    (h1 : ∀ x ∈ l, x ≤ 1) : np_var l ≤ 1 := by
  obtain ⟨hm0, hm1⟩ := np_mean_bounds l hne h0 h1
  have hlen : (0 : ℝ) < l.length := by exact_mod_cast List.length_pos.mpr hne
  rw [np_var, div_le_one hlen]
  have hb : ∀ y ∈ l.map (fun x => (x - np_mean l) ^ 2), y ≤ 1 := by
    intro y hy
    obtain ⟨x, hx, rfl⟩ := List.mem_map.mp hy
    have hax : |x - np_mean l| ≤ 1 :=
      abs_le.mpr ⟨by linarith [h0 x hx], by linarith [h1 x hx]⟩
    calc (x - np_mean l) ^ 2 = |x - np_mean l| ^ 2 := (sq_abs _).symm
      _ ≤ 1 ^ 2 := pow_le_pow_left₀ (abs_nonneg _) hax 2
      _ = 1 := one_pow 2
  have h := List.sum_le_card_nsmul _ 1 hb
  simpa [List.length_map] using h

theorem np_std_le_one (l : List ℝ) (hne : l ≠ []) (h0 : ∀ x ∈ l, 0 ≤ x)
    (h1 : ∀ x ∈ l, x ≤ 1) : np_std l ≤ 1 := by
  rw [np_std, show (1 : ℝ) = Real.sqrt 1 from (Real.sqrt_one).symm]
  exact Real.sqrt_le_sqrt (np_var_le_one l hne h0 h1)

theorem calculate_confidence_bounds (factors : List (String × ℝ))
    (hlen : factors.length ≤ 6)
    (hb : ∀ p ∈ factors, 0 ≤ p.2 ∧ p.2 ≤ 1) :
    0 ≤ calculate_confidence factors ∧ calculate_confidence factors ≤ 1 := by
  rcases factors with _ | ⟨p, t⟩
  · rw [show calculate_confidence [] = 0 by simp [calculate_confidence]]
    exact ⟨le_rfl, zero_le_one⟩
  · have hcc : calculate_confidence (p :: t) =
        (((p :: t).length : ℝ) / (scorer_weights.length : ℝ) +
          (if 1 < (p :: t).length then 1 - np_std ((p :: t).map Prod.snd)
           else 0.5)) / 2 := by
      simp [calculate_confidence]
    have h6 : (scorer_weights.length : ℝ) = 6 := by norm_num [scorer_weights]
    have havail0 : 0 ≤ ((p :: t).length : ℝ) / (scorer_weights.length : ℝ) := by
      positivity
    have havail1 : ((p :: t).length : ℝ) / (scorer_weights.length : ℝ) ≤ 1 := by
      rw [h6, div_le_one (by norm_num : (0 : ℝ) < 6)]
      exact_mod_cast hlen
    have hcons : 0 ≤ (if 1 < (p :: t).length then
          1 - np_std ((p :: t).map Prod.snd) else 0.5) ∧
        (if 1 < (p :: t).length then
          1 - np_std ((p :: t).map Prod.snd) else 0.5) ≤ 1 := by
      by_cases hgt : 1 < (p :: t).length
      · rw [if_pos hgt]
        have hs0 : ∀ x ∈ (p :: t).map Prod.snd, 0 ≤ x := by
          intro x hx
          obtain ⟨q, hq, rfl⟩ := List.mem_map.mp hx
          exact (hb q hq).1
        have hs1 : ∀ x ∈ (p :: t).map Prod.snd, x ≤ 1 := by
          intro x hx
          obtain ⟨q, hq, rfl⟩ := List.mem_map.mp hx
          exact (hb q hq).2
        have hstd0 : 0 ≤ np_std ((p :: t).map Prod.snd) := Real.sqrt_nonneg _
        have hstd1 : np_std ((p :: t).map Prod.snd) ≤ 1 :=
          np_std_le_one _ (by simp) hs0 hs1
        exact ⟨by linarith, by linarith⟩
      · rw [if_neg hgt]
        norm_num
    constructor
    · rw [hcc]
      linarith [havail0, hcons.1]
    · rw [hcc]
      linarith [havail1, hcons.2]

/-- The confidence formula of the amended claim C3: average of (number of
recorded factors / 6) and a consistency term (`1 − std` for at least two
scores, the constant 0.5 for exactly one); 0 when no factor was recorded. -/
def confidence_formula (scores : List ℝ) : ℝ :=
  if scores = [] then 0
  else ((scores.length : ℝ) / 6 +
    (if 1 < scores.length then 1 - np_std scores else 0.5)) / 2

theorem calculate_confidence_eq_formula (l : List (String × ℝ)) :
    calculate_confidence l = confidence_formula (l.map Prod.snd) := by
  rcases l with _ | ⟨p, t⟩
  · simp [calculate_confidence, confidence_formula]
  · simp [calculate_confidence, confidence_formula, scorer_weights]

/-- Claim C3 (amended): the confidence of every `calculate_risk` result is
the average of (number of recorded factors / 6 — the historical factor also
counts) and a consistency term equal to `1 −` the standard deviation of the
factor scores when at least two factors are recorded and to the constant 0.5
when exactly one is; it is 0 when no factor is recorded; and it lies in
`[0,1]` whenever at most six factors are recorded and every score lies in
`[0,1]`. -/
theorem c3_confidence (officer_id : String) (health_data : Option HealthSnapshot)
    (location_data : Option LocationSnapshot) (db : Option (List (Option ℝ))) :
    (calculate_risk officer_id health_data location_data db).confidence =
      confidence_formula
        ((calculate_risk officer_id health_data location_data db).factors.map
          Prod.snd) ∧
    calculate_confidence [] = 0 ∧
    (∀ factors : List (String × ℝ), factors.length ≤ 6 →
      (∀ p ∈ factors, 0 ≤ p.2 ∧ p.2 ≤ 1) →
      0 ≤ calculate_confidence factors ∧ calculate_confidence factors ≤ 1) :=
  ⟨calculate_confidence_eq_formula _, by simp [calculate_confidence],
    calculate_confidence_bounds⟩

/-- Claim C3 counterexample: with no health data, no location and no
database, the scorer still records the single factor `fall_detection = 0.0`,
and the confidence is `(1/6 + 0.5)/2 = 1/3` — not the claimed average
`(1/6 + (1 − std[0.0]))/2 = 7/12` of the availability fraction and one minus
the standard deviation of the available scores. -/
theorem c3_counterexample :
    (calculate_risk "officer-1" none none none).factors = [("fall_detection", 0)] ∧
    (calculate_risk "officer-1" none none none).confidence = 1 / 3 ∧
    ((1 : ℝ) / 6 +
        (1 - np_std ((calculate_risk "officer-1" none none none).factors.map
          Prod.snd))) / 2 = 7 / 12 ∧
    (calculate_risk "officer-1" none none none).confidence ≠
      ((1 : ℝ) / 6 +
        (1 - np_std ((calculate_risk "officer-1" none none none).factors.map
          Prod.snd))) / 2 := by
  have hfac : (calculate_risk "officer-1" none none none).factors =
      [("fall_detection", 0)] := rfl
  have hmap : (calculate_risk "officer-1" none none none).factors.map Prod.snd =
      [(0 : ℝ)] := by
    rw [hfac]
    rfl
  have hstd : np_std [(0 : ℝ)] = 0 := by
    simp [np_std, np_var, np_mean]
  have hconf : (calculate_risk "officer-1" none none none).confidence = 1 / 3 := by
    rw [show (calculate_risk "officer-1" none none none).confidence =
        calculate_confidence ((calculate_risk "officer-1" none none none).factors)
      from rfl, hfac]
    norm_num [calculate_confidence, scorer_weights]
  refine ⟨hfac, hconf, ?_, ?_⟩
  · rw [hmap, hstd]
    norm_num
  · rw [hconf, hmap, hstd]
    norm_num

/-- Witness for C3 at concrete arguments. -/
theorem c3_confidence_witness :
    (calculate_risk "officer-2" none none none).confidence =
      confidence_formula
        ((calculate_risk "officer-2" none none none).factors.map Prod.snd) ∧
    ([(("fall_detection" : String), (0 : ℝ))].length ≤ 6 ∧
      0 ≤ calculate_confidence [("fall_detection", 0)] ∧
      calculate_confidence [("fall_detection", 0)] ≤ 1) := by
  have h := c3_confidence "officer-2" none none none
  have hb := h.2.2 [("fall_detection", 0)] (by norm_num)
    (by
      intro p hp
      simp only [List.mem_singleton] at hp
      rw [hp]
      norm_num)
  exact ⟨h.1, by norm_num, hb.1, hb.2⟩

end

end FRRisk
